import Mathlib

/-!
Verification of the ACE EDHOC/OSCORE implementation (`lib/edhoc/protocol.py`,
`as/__init__.py`) against its natural-language specification.

Byte strings are modelled as `List Nat`.  External cryptographic primitives
(SHA-256, HKDF-SHA-256, ECDH over P-256, ECDSA, AES-CCM) come from third-party
libraries (`cryptography`, `ecdsa`); they are modelled as abstract function
parameters gathered in the `Prims` record, with their defining properties
(ECDH commutativity, AEAD round-trip) taken as hypotheses where a theorem
needs them.  CBOR encoding of the concrete value shapes used by the code
(`cbor2.dumps`) is modelled executably.  Parts of the repository that are
referenced but whose source is not available (`lib/edhoc/messages.py`,
`lib/cose`, the AS registries) are modelled from the specification; their
doc comments say so explicitly.
-/

namespace Ace

/-- Model of a byte string: a list of byte values. -/
abbrev Bytes := List Nat

/-- Head bytes of a CBOR item of the given major type whose argument is `n`
(deterministic shortest form, as produced by `cbor2.dumps` for the sizes
appearing in this code base). -/
def cborHead (major n : Nat) : Bytes :=
  if n < 24 then [32 * major + n]
  else if n < 256 then [32 * major + 24, n]
  else [32 * major + 25, n / 256 % 256, n % 256]

/-- UTF-8 bytes of a string (all strings used by the code are ASCII). -/
def utf8 (s : String) : Bytes := s.data.map Char.toNat

/-- CBOR encoding of a text string (major type 3). -/
def cborText (s : String) : Bytes := cborHead 3 (utf8 s).length ++ utf8 s

/-- CBOR encoding of a byte string (major type 2). -/
def cborBstr (b : Bytes) : Bytes := cborHead 2 b.length ++ b

/-- CBOR encoding of `None` / `null`. -/
def cborNull : Bytes := [246]

/-- CBOR encoding of a small unsigned integer (major type 0). -/
def cborUInt (n : Nat) : Bytes := cborHead 0 n

/-- Translation of `cose_kdf_context` (protocol.py lines 31-38):
`dumps([algorithm_id, [None,None,None], [None,None,None],
[key_length, b'', other]])`. -/
def cose_kdf_context (algorithm_id : String) (key_length : Nat) (other : Bytes) : Bytes :=
  cborHead 4 4 ++ cborText algorithm_id
    ++ (cborHead 4 3 ++ cborNull ++ cborNull ++ cborNull)
    ++ (cborHead 4 3 ++ cborNull ++ cborNull ++ cborNull)
    ++ (cborHead 4 3 ++ cborUInt key_length ++ cborBstr [] ++ cborBstr other)

/-- Translation of the `OscoreContext` named tuple (protocol.py lines 47-52). -/
structure OscoreContext where
  master_secret : Bytes
  master_salt : Bytes
deriving DecidableEq, Repr, Inhabited

/-- Exceptions raised by the COSE layer (`lib/cose`), per spec section 7. -/
inductive Err where
  | decryptionFailed
  | signatureInvalid
  | unknownPeer
deriving DecidableEq, Repr

/-- Translation of `Message1` (lib/edhoc/messages.py, source not available;
fields per spec section 4.4: `MSG1 = [1, session_id_u, nonce_u, G_X]`).
`bytes_object` holds the original wire bytes when the message was parsed
from the wire (spec section 9, canonical byte preservation). -/
structure Message1 where
  session_id : Bytes
  nonce : Bytes
  ephemeral_key : Nat
  bytes_object : Option Bytes
deriving DecidableEq, Repr, Inhabited

/-- Translation of `Message2` (lib/edhoc/messages.py, source not available;
fields per spec section 4.4: `MSG2 = [2, session_id_u, session_id_v, nonce_v,
G_Y, ciphertext_2]`).  `signature` is the inner Sign1 produced by `sign`;
`ciphertext_2` is set by `encrypt`. -/
structure Message2 where
  session_id : Bytes
  peer_session_id : Bytes
  peer_nonce : Bytes
  peer_ephemeral_key : Nat
  signature : Option Bytes
  ciphertext_2 : Option Bytes
  bytes_object : Option Bytes
deriving DecidableEq, Repr, Inhabited

/-- Translation of `Message3` (lib/edhoc/messages.py, source not available;
fields per spec section 4.4: `MSG3 = [3, session_id_v, ciphertext_3]`). -/
structure Message3 where
  peer_session_id : Bytes
  signature : Option Bytes
  ciphertext_3 : Option Bytes
  bytes_object : Option Bytes
deriving DecidableEq, Repr, Inhabited

/-- Abstract interface to the external cryptographic libraries and to the
canonical CBOR serializers of the message classes.  `H` is SHA-256
(`message_digest`), `hkdf` is HKDF-SHA-256 with empty salt (`derive_key`),
`pub`/`dh` are P-256 key generation and ECDH exchange (private keys are
abstract handles), `vkOf` maps a signing key to its verifying key, `mkSig`
builds the serialized inner Sign1 with empty payload over an external aad,
`verify1` is `Signature1Message.verify`, `aeadEnc`/`aeadDec` are the
AES-CCM AEAD behind `Encrypt0Message` (arguments: key, iv, aad, payload
resp. ciphertext), and `enc1`/`data2`/`enc2`/`enc3` are the canonical CBOR
encoders of MSG1, of the leading fields of MSG2, of full MSG2 and of MSG3. -/
structure Prims where
  H : Bytes → Bytes
  hkdf : Bytes → Nat → Bytes → Bytes
  pub : Nat → Nat
  dh : Nat → Nat → Bytes
  vkOf : Nat → Nat
  mkSig : Nat → Bytes → Bytes
  verify1 : Bytes → Nat → Bytes → Except Err Bytes
  aeadEnc : Bytes → Bytes → Bytes → Bytes → Bytes
  aeadDec : Bytes → Bytes → Bytes → Bytes → Except Err Bytes
  enc1 : Bytes → Bytes → Nat → Bytes
  data2 : Bytes → Bytes → Bytes → Nat → Bytes
  enc2 : Bytes → Bytes → Bytes → Nat → Bytes → Bytes
  enc3 : Bytes → Bytes → Bytes

/-- Translation of `derive_key` (protocol.py lines 20-28): HKDF-SHA-256 with
`salt=None` over the given context info. -/
def derive_key (P : Prims) (input_key : Bytes) (length : Nat) (context_info : Bytes) : Bytes :=
  P.hkdf input_key length context_info

/-- Python `bytes(message1)`: the preserved wire bytes if the message was
parsed from the wire, otherwise its canonical encoding. -/
def Message1.toBytes (P : Prims) (m : Message1) : Bytes :=
  match m.bytes_object with
  | some b => b
  | none => P.enc1 m.session_id m.nonce m.ephemeral_key

/-- Python `bytes(message2)`. -/
def Message2.toBytes (P : Prims) (m : Message2) : Bytes :=
  match m.bytes_object with
  | some b => b
  | none => P.enc2 m.session_id m.peer_session_id m.peer_nonce m.peer_ephemeral_key
      (m.ciphertext_2.getD [])

/-- Python `bytes(message3)`. -/
def Message3.toBytes (P : Prims) (m : Message3) : Bytes :=
  match m.bytes_object with
  | some b => b
  | none => P.enc3 m.peer_session_id (m.ciphertext_3.getD [])

/-- Modelled from the spec: `Message2.aad_2` (lib/edhoc/messages.py, source
not available).  Spec section 4.5: `TH_2 = SHA-256(MSG1 concat data_2)` where
`data_2` is the leading fields of MSG2 up to but not including
`ciphertext_2`. -/
def Message2.aad_2 (P : Prims) (m : Message2) (m1 : Message1) : Bytes :=
  P.H (m1.toBytes P ++ P.data2 m.session_id m.peer_session_id m.peer_nonce m.peer_ephemeral_key)

/-- Modelled from the spec: `Message3.aad_3` (lib/edhoc/messages.py, source
not available).  Spec section 4.5: `TH_3 = SHA-256(TH_2 concat ciphertext_2)`. -/
def Message3.aad_3 (P : Prims) (_m : Message3) (m1 : Message1) (m2 : Message2) : Bytes :=
  P.H (m2.aad_2 P m1 ++ m2.ciphertext_2.getD [])

/-- Modelled from the spec: `Message2.sign` (lib/edhoc/messages.py, source not
available).  Spec section 4.4: the inner Sign1 has empty payload and is made
by the long-term key over the external aad. -/
def Message2.signM (P : Prims) (m : Message2) (sk : Nat) (aad : Bytes) : Message2 :=
  { m with signature := some (P.mkSig sk aad) }

/-- Modelled from the spec: `Message2.encrypt` (lib/edhoc/messages.py, source
not available).  Spec section 4.3/4.4: `ciphertext_2` is an Encrypt0 of the
inner Sign1 under the given key and iv, with the transcript hash as external
aad. -/
def Message2.encryptM (P : Prims) (m : Message2) (key iv aad : Bytes) : Message2 :=
  { m with ciphertext_2 := some (P.aeadEnc key iv aad (m.signature.getD [])) }

/-- Modelled from the spec: `Message3.sign` (lib/edhoc/messages.py, source not
available). -/
def Message3.signM (P : Prims) (m : Message3) (sk : Nat) (aad : Bytes) : Message3 :=
  { m with signature := some (P.mkSig sk aad) }

/-- Modelled from the spec: `Message3.encrypt` (lib/edhoc/messages.py, source
not available). -/
def Message3.encryptM (P : Prims) (m : Message3) (key iv aad : Bytes) : Message3 :=
  { m with ciphertext_3 := some (P.aeadEnc key iv aad (m.signature.getD [])) }

/-- Translation of `EdhocSession.Session` (protocol.py lines 95-100). -/
structure Session where
  id : Option Bytes
  shared_secret : Option Bytes
  private_key : Option Nat
  public_key : Option Nat
deriving DecidableEq, Repr, Inhabited

/-- State of an `EdhocSession` (protocol.py lines 55-64): the session record,
the three stored messages, and the cached `_oscore_context`. -/
structure EdhocState where
  session : Session
  message1 : Option Message1
  message2 : Option Message2
  message3 : Option Message3
  oscoreCache : Option OscoreContext
deriving DecidableEq, Repr, Inhabited

/-- Translation of `EdhocSession.__init__` (protocol.py lines 57-64). -/
def EdhocState.init : EdhocState :=
  { session := { id := none, shared_secret := none, private_key := none, public_key := none },
    message1 := none, message2 := none, message3 := none, oscoreCache := none }

/-- Translation of the `EdhocSession.oscore_context` property (protocol.py
lines 66-79), returning the context together with the state updated by the
lazy caching.  `exchange_hash = H(H(message1 + message2) + message3)`,
`master_secret = derive_key(Z, 16, cose_kdf_context("EDHOC OSCORE Master
Secret", 16, exchange_hash))`, `master_salt = derive_key(Z, 7,
cose_kdf_context("EDHOC OSCORE Master Salt", 7, exchange_hash))`. -/
def EdhocState.oscore_context (P : Prims) (s : EdhocState) : OscoreContext × EdhocState :=
  match s.oscoreCache with
  | some ctx => (ctx, s)
  | none =>
    let exchange_hash := P.H (P.H ((s.message1.getD default).toBytes P
      ++ (s.message2.getD default).toBytes P) ++ (s.message3.getD default).toBytes P)
    let Z := s.session.shared_secret.getD []
    let master_secret := derive_key P Z 16
      (cose_kdf_context "EDHOC OSCORE Master Secret" 16 exchange_hash)
    let master_salt := derive_key P Z 7
      (cose_kdf_context "EDHOC OSCORE Master Salt" 7 exchange_hash)
    let ctx : OscoreContext := { master_secret := master_secret, master_salt := master_salt }
    (ctx, { s with oscoreCache := some ctx })

/-- Modelled from the spec: `Encrypt0Message(payload).serialize(iv, key)`
(lib/cose, source not available).  Spec section 4.3: the serialized Encrypt0
carries the AEAD ciphertext of the payload under key and iv; `serialize` uses
an empty external aad. -/
def e0serialize (P : Prims) (payload iv key : Bytes) : Bytes :=
  P.aeadEnc key iv [] payload

/-- Modelled from the spec: `Encrypt0Message.decrypt(ciphertext, key, iv,
external_aad)` (lib/cose, source not available). -/
def e0decrypt (P : Prims) (ciphertext key iv external_aad : Bytes) : Except Err Bytes :=
  P.aeadDec key iv external_aad ciphertext

/-- Translation of `EdhocSession.encrypt` (protocol.py lines 81-85): Encrypt0
of the payload with `iv = oscore_context.master_salt` and
`key = oscore_context.master_secret`. -/
def EdhocState.encrypt (P : Prims) (s : EdhocState) (payload : Bytes) : Bytes × EdhocState :=
  let (ctx, s1) := s.oscore_context P
  (e0serialize P payload ctx.master_salt ctx.master_secret, s1)

/-- Translation of `EdhocSession.decrypt` (protocol.py lines 87-93). -/
def EdhocState.decrypt (P : Prims) (s : EdhocState) (ciphertext : Bytes) :
    Except Err Bytes × EdhocState :=
  let (ctx, s1) := s.oscore_context P
  (e0decrypt P ciphertext ctx.master_secret ctx.master_salt [], s1)

/-- State of a `Server` (protocol.py lines 103-109): long-term signing key,
its verifying key, the single peer verification key `client_id`, plus the
inherited `EdhocSession` state. -/
structure ServerState where
  sk : Nat
  vk : Nat
  client_id : Nat
  st : EdhocState
deriving DecidableEq, Repr, Inhabited

/-- Translation of `Server.__init__` (protocol.py lines 104-109). -/
def Server.init (P : Prims) (sk client_id : Nat) : ServerState :=
  { sk := sk, vk := P.vkOf sk, client_id := client_id, st := EdhocState.init }

/-- Translation of `Server.on_msg_1` (protocol.py lines 121-160).  The
randomness drawn by the code (`os.urandom` session id and nonce, the fresh
ephemeral key) is passed in as arguments `session_id`, `nonce`,
`session_key`. -/
def Server.on_msg_1 (P : Prims) (s : ServerState) (session_id nonce : Bytes)
    (session_key : Nat) (m1 : Message1) : Message2 × ServerState :=
  let public_session_key := P.pub session_key
  let peer_session_key := m1.ephemeral_key
  let peer_session_id := m1.session_id
  let ecdh_shared_secret := P.dh session_key peer_session_key
  let session : Session :=
    { id := some session_id, private_key := some session_key,
      public_key := some public_session_key, shared_secret := some ecdh_shared_secret }
  let m2 : Message2 :=
    { session_id := peer_session_id, peer_session_id := session_id, peer_nonce := nonce,
      peer_ephemeral_key := public_session_key,
      signature := none, ciphertext_2 := none, bytes_object := none }
  let aad2 := m2.aad_2 P m1
  let m2 := m2.signM P s.sk aad2
  let k_2 := derive_key P ecdh_shared_secret 16
    (cose_kdf_context "AES-CCM-64-64-128" 16 aad2)
  let iv_2 := derive_key P ecdh_shared_secret 7
    (cose_kdf_context "IV-Generation" 7 aad2)
  let m2 := m2.encryptM P k_2 iv_2 aad2
  (m2, { s with st := { s.st with session := session, message1 := some m1, message2 := some m2 } })

/-- Translation of `Server.on_msg_3` (protocol.py lines 162-177).  The
received wire message is `m3`; decryption and signature verification
failures propagate as exceptions (`Except.error`). -/
def Server.on_msg_3 (P : Prims) (s : ServerState) (m3 : Message3) :
    Except Err ServerState :=
  let st := { s.st with message3 := some m3 }
  let aad3 := m3.aad_3 P (st.message1.getD default) (st.message2.getD default)
  let Z := st.session.shared_secret.getD []
  let k_3 := derive_key P Z 16 (cose_kdf_context "AES-CCM-64-64-128" 16 aad3)
  let iv_3 := derive_key P Z 7 (cose_kdf_context "IV-Generation" 7 aad3)
  do
    let sig_u ← e0decrypt P (m3.ciphertext_3.getD []) k_3 iv_3 aad3
    let _payload ← P.verify1 sig_u s.client_id aad3
    return { s with st := st }

/-- A decoded wire message, by leading CBOR tag (spec section 4.4 and 6:
tags 1, 2, 3, and 0 for EDHOC-Error). -/
inductive WireMsg where
  | m1 (m : Message1)
  | m2 (m : Message2)
  | m3 (m : Message3)
  | err (sid : Bytes) (diagnostic : String)
deriving DecidableEq, Repr

/-- Leading CBOR tag of a wire message. -/
def WireMsg.tag : WireMsg → Nat
  | .m1 _ => 1
  | .m2 _ => 2
  | .m3 _ => 3
  | .err _ _ => 0

/-- Responses returned by the server handlers: `Message2` after MSG1,
`MessageOk` after MSG3. -/
inductive Response where
  | msg2 (m : Message2)
  | messageOk
deriving DecidableEq, Repr

/-- Translation of `Server.on_receive` (protocol.py lines 111-119): dispatch
on `decoded[0]`; a tag that is neither `EDHOC_MSG_1` nor `EDHOC_MSG_3` falls
through and the method returns `None`. -/
def Server.on_receive (P : Prims) (session_id nonce : Bytes) (session_key : Nat)
    (s : ServerState) (w : WireMsg) : Option (Except Err (Response × ServerState)) :=
  match w with
  | .m1 m =>
    let (m2, s1) := Server.on_msg_1 P s session_id nonce session_key m
    some (.ok (.msg2 m2, s1))
  | .m3 m => some ((Server.on_msg_3 P s m).map fun s1 => (.messageOk, s1))
  | _ => none

/-- State of a `Client` (protocol.py lines 180-186). -/
structure ClientState where
  sk : Nat
  vk : Nat
  server_id : Nat
  st : EdhocState
deriving DecidableEq, Repr, Inhabited

/-- Translation of `Client.__init__` (protocol.py lines 181-186). -/
def Client.init (P : Prims) (sk server_id : Nat) : ClientState :=
  { sk := sk, vk := P.vkOf sk, server_id := server_id, st := EdhocState.init }

/-- Translation of `Client.initiate_edhoc` (protocol.py lines 188-201), with
the drawn randomness (`session_id`, `nonce`, ephemeral `session_key`) passed
in as arguments. -/
def Client.initiate_edhoc (P : Prims) (c : ClientState) (session_id nonce : Bytes)
    (session_key : Nat) : Message1 × ClientState :=
  let public_session_key := P.pub session_key
  let m1 : Message1 :=
    { session_id := session_id, nonce := nonce, ephemeral_key := public_session_key,
      bytes_object := none }
  let session := { c.st.session with
    id := some session_id,
    private_key := some session_key,
    public_key := some public_session_key }
  (m1, { c with st := { c.st with session := session, message1 := some m1 } })

/-- Translation of `Client.continue_edhoc` (protocol.py lines 203-249).  The
received MSG2 (already decoded, with its original wire bytes preserved in
`bytes_object`) is `m2`.  Decryption and signature verification failures
propagate as exceptions. -/
def Client.continue_edhoc (P : Prims) (c : ClientState) (m2 : Message2) :
    Except Err (Message3 × ClientState) :=
  let ecdh_shared_secret := P.dh (c.st.session.private_key.getD 0) m2.peer_ephemeral_key
  let session := { c.st.session with shared_secret := some ecdh_shared_secret }
  let c := { c with st := { c.st with session := session, message2 := some m2 } }
  let aad2 := m2.aad_2 P (c.st.message1.getD default)
  let k_2 := derive_key P ecdh_shared_secret 16
    (cose_kdf_context "AES-CCM-64-64-128" 16 aad2)
  let iv_2 := derive_key P ecdh_shared_secret 7
    (cose_kdf_context "IV-Generation" 7 aad2)
  do
    let sig_v ← e0decrypt P (m2.ciphertext_2.getD []) k_2 iv_2 aad2
    let _payload ← P.verify1 sig_v c.server_id aad2
    let m3 : Message3 :=
      { peer_session_id := m2.peer_session_id, signature := none, ciphertext_3 := none,
        bytes_object := none }
    let aad3 := m3.aad_3 P (c.st.message1.getD default) m2
    let m3 := m3.signM P c.sk aad3
    let k_3 := derive_key P ecdh_shared_secret 16
      (cose_kdf_context "AES-CCM-64-64-128" 16 aad3)
    let iv_3 := derive_key P ecdh_shared_secret 7
      (cose_kdf_context "IV-Generation" 7 aad3)
    let m3 := m3.encryptM P k_3 iv_3 aad3
    return (m3, { c with st := { c.st with message3 := some m3 } })

/-- Untampered transmission of MSG1: serialization followed by
`Message1.from_bytes` yields the same fields with the original wire bytes
preserved (spec section 9, canonical byte preservation). -/
def transmit1 (P : Prims) (m : Message1) : Message1 :=
  { m with bytes_object := some (m.toBytes P) }

/-- Untampered transmission of MSG2: the receiver re-builds the message from
the decoded tuple `(tag, sess_id, p_sess_id, p_nonce, p_eph_key, enc_2)` and
the original wire bytes (protocol.py lines 204, 212). -/
def transmit2 (P : Prims) (m : Message2) : Message2 :=
  { session_id := m.session_id, peer_session_id := m.peer_session_id,
    peer_nonce := m.peer_nonce, peer_ephemeral_key := m.peer_ephemeral_key,
    signature := none, ciphertext_2 := m.ciphertext_2,
    bytes_object := some (m.toBytes P) }

/-- Untampered transmission of MSG3: the receiver re-builds the message from
the decoded tuple `(tag, p_sess_id, enc_3)` and the original wire bytes
(protocol.py lines 163-165). -/
def transmit3 (P : Prims) (m : Message3) : Message3 :=
  { peer_session_id := m.peer_session_id, signature := none,
    ciphertext_3 := m.ciphertext_3, bytes_object := some (m.toBytes P) }

/-- Modelled from the spec: the CBOR claim keys of `lib/cbor/constants`
(source not available; spec section 6). -/
inductive CK where
  | grant_type
  | client_id
  | client_secret
  | aud
  | scope
  | cnf
  | access_token
  | token_type
  | profile
  | rs_cnf
  | token
  | token_type_hint
  | active
  | iss
  | exp
  | iat
deriving DecidableEq, Repr

/-- CBOR values appearing in AS request and response maps. -/
inductive Val where
  | str (v : String)
  | bytes (v : Bytes)
  | num (v : Nat)
  | bool (v : Bool)
  | map (v : List (Nat × Bytes))
deriving DecidableEq, Repr

/-- A decoded CBOR request or response map. -/
abbrev Params := List (CK × Val)

/-- Dictionary lookup `params.get(k)`. -/
def lookupParam (ps : Params) (k : CK) : Option Val :=
  (ps.find? (fun p => p.1 == k)).map Prod.snd

/-- Python runtime errors escaping a handler (`KeyError` from `params[k]` on
a missing key, and kindred lookup failures). -/
inductive PyErr where
  | keyError
deriving DecidableEq, Repr

/-- Python subscription `params[k]`: raises `KeyError` when absent. -/
def pyGet (ps : Params) (k : CK) : Except PyErr Val :=
  match lookupParam ps k with
  | some v => .ok v
  | none => .error .keyError

/-- Python subscription into a nested CBOR map (`params[CNF][COSE_KEY]`);
a missing key or a non-map value raises. -/
def pyGetMap (v : Val) (n : Nat) : Except PyErr Bytes :=
  match v with
  | .map m =>
    match (m.find? (fun p => p.1 == n)).map Prod.snd with
    | some b => .ok b
    | none => .error .keyError
  | _ => .error .keyError

/-- Translation of `AuthorizationServer._verify_token_request` (as/__init__.py
lines 123-137): the request must be non-`None` and contain `GRANT_TYPE`,
`CLIENT_ID`, `CLIENT_SECRET` and `AUD`. -/
def verify_token_request (request_data : Option Params) : Bool :=
  match request_data with
  | none => false
  | some d =>
    [CK.grant_type, CK.client_id, CK.client_secret, CK.aud].all
      (fun k => (lookupParam d k).isSome)

/-- Modelled from the spec: the `ClientRegistry` of the AS (source not
available; spec section 9, an opaque store of registered client
credentials).  `check_secret` is membership. -/
def verify_client (clients : List (Val × Val)) (client_id client_secret : Val) : Bool :=
  clients.contains (client_id, client_secret)

/-- Client credentials registered by `AuthorizationServer.__init__`
(as/__init__.py lines 29-30). -/
def initClients : List (Val × Val) :=
  [(.str "ace_client_1", .bytes (utf8 "ace_client_1_secret_123456"))]

/-- Body of an AS HTTP response: a CBOR error map `{'error': code}`, the
token-issuance success map, or a general CBOR map (introspection). -/
inductive RespBody where
  | err (code : String)
  | tokenSuccess
  | cborMap (m : Params)
deriving DecidableEq, Repr

/-- An AS HTTP response: status code and body. -/
structure HttpResp where
  status : Nat
  body : RespBody
deriving DecidableEq, Repr

/-- Translation of `AuthorizationServer.token` (as/__init__.py lines 53-95).
The token-minting tail (claims assembly, signing, registry writes) always
succeeds once its inputs are read, so the 200 body is abstracted to
`tokenSuccess`.  Reads of `params[CNF][COSE_KEY]` and of `SCOPE` (line 76)
are plain subscriptions and raise `KeyError` when absent. -/
def AS.token (clients : List (Val × Val)) (params : Option Params) :
    Except PyErr HttpResp :=
  if !verify_token_request params then .ok { status := 400, body := .err "invalid_request" }
  else
    match params with
    | none => .ok { status := 400, body := .err "invalid_request" }
    | some ps =>
      let client_id := (lookupParam ps .client_id).getD (.str "")
      let client_secret := (lookupParam ps .client_secret).getD (.str "")
      if !verify_client clients client_id client_secret then
        .ok { status := 400, body := .err "unauthorized_client" }
      else
        (pyGet ps .cnf).bind fun cnf =>
        (pyGetMap cnf 1).bind fun _client_pop_key =>
        (pyGet ps .scope).bind fun _scope =>
        (pyGet ps .aud).bind fun _aud =>
        .ok { status := 200, body := .tokenSuccess }

/-- Introspection data held for a registered token (the `access_context`
returned by `TokenRegistry.get_token`). -/
structure AccessContext where
  scope : Val
  audience : Val
  issuer : Val
  expires : Nat
  issued_at : Nat
  bound_key : Bytes
deriving DecidableEq, Repr

/-- Modelled from the spec: `TokenRegistry.get_token` (source not available;
spec section 9, an opaque store keyed by token reference).  A token that is
not registered fails the lookup. -/
def get_token (registry : List (Val × AccessContext)) (reference : Val) :
    Except PyErr AccessContext :=
  match (registry.find? (fun p => p.1 == reference)).map Prod.snd with
  | some ctx => .ok ctx
  | none => .error .keyError

/-- Translation of `AuthorizationServer.introspect` (as/__init__.py lines
140-164).  Line 148 reads `params[CK.TOKEN_TYPE_HINT]` by plain
subscription, which raises `KeyError` when the parameter is absent. -/
def AS.introspect (registry : List (Val × AccessContext)) (params : Params) :
    Except PyErr HttpResp :=
  if !(lookupParam params .token).isSome then
    .ok { status := 400, body := .err "missing \"token\" parameter" }
  else
    let token := (lookupParam params .token).getD (.str "")
    (pyGet params .token_type_hint).bind fun _token_type_hint =>
    (get_token registry token).bind fun access_context =>
    .ok { status := 201, body := .cborMap [
      (.active, .bool true),
      (.scope, access_context.scope),
      (.aud, access_context.audience),
      (.iss, access_context.issuer),
      (.exp, .num access_context.expires),
      (.iat, .num access_context.issued_at),
      (.cnf, .map [(1, access_context.bound_key)])] }

/-- Definition following the words of claim C2 (spec section 4.5), for
comparison with the code: `TH_4 = SHA-256(TH_3 concat ciphertext_3)`. -/
def spec_TH4 (P : Prims) (th3 ciphertext3 : Bytes) : Bytes :=
  P.H (th3 ++ ciphertext3)

/-- Definition following the words of claim C2, for comparison with the code:
`master_secret = HKDF(Z, 16, ctx("OSCORE Master Secret", 16, TH_4))`. -/
def specMasterSecret (P : Prims) (Z th4 : Bytes) : Bytes :=
  P.hkdf Z 16 (cose_kdf_context "OSCORE Master Secret" 16 th4)

/-- Definition following the words of claim C2, for comparison with the code:
`master_salt = HKDF(Z, 8, ctx("OSCORE Master Salt", 8, TH_4))`. -/
def specMasterSalt (P : Prims) (Z th4 : Bytes) : Bytes :=
  P.hkdf Z 8 (cose_kdf_context "OSCORE Master Salt" 8 th4)

/-- Definition following the words of claim C3, for comparison with the code:
`K_2 = HKDF(Z, 16, ctx("AES-CCM-16-64-128", 16, TH_2))` (and `K_3` likewise
over `TH_3`). -/
def spec_K (P : Prims) (Z th : Bytes) : Bytes :=
  P.hkdf Z 16 (cose_kdf_context "AES-CCM-16-64-128" 16 th)

/-- Definition following the words of claim C3, for comparison with the code:
`IV_2 = HKDF(Z, 13, ctx("IV-GENERATION", 13, TH_2))` (and `IV_3` likewise
over `TH_3`). -/
def spec_IV (P : Prims) (Z th : Bytes) : Bytes :=
  P.hkdf Z 13 (cose_kdf_context "IV-GENERATION" 13 th)

/-- A concrete, fully computable instantiation of the abstract primitives,
used to evaluate the model on explicit inputs.  ECDH is additive
(`dh a b = a + b`, hence commutative through `pub`), the AEAD prepends key
and iv to the payload, and HKDF tags its output with length and context. -/
def P0 : Prims where
  H := fun b => 0 :: b
  hkdf := fun z l i => z ++ l :: i
  pub := fun n => n + 100
  dh := fun a b => [(a + b) % 256]
  vkOf := fun n => n + 1000
  mkSig := fun sk aad => sk % 256 :: aad
  verify1 := fun s _vk _aad => .ok s
  aeadEnc := fun k iv _aad p => (k ++ iv) ++ p
  aeadDec := fun k iv _aad c =>
    if c.take (k ++ iv).length = k ++ iv then .ok (c.drop (k ++ iv).length)
    else .error .decryptionFailed
  enc1 := fun sid nonce k => 1 :: (sid ++ nonce ++ [k % 256])
  data2 := fun a b c k => 2 :: (a ++ b ++ c ++ [k % 256])
  enc2 := fun a b c k ct => 2 :: (a ++ b ++ c ++ [k % 256] ++ ct)
  enc3 := fun sid ct => 3 :: (sid ++ ct)

/-- Demo run: the honest client, long-term signing key 1, expecting the
server identity `vkOf 2`. -/
def demoClient0 : ClientState := Client.init P0 1 (P0.vkOf 2)

/-- Demo run: the honest server, long-term signing key 2, expecting the
client identity `vkOf 1`. -/
def demoServer0 : ServerState := Server.init P0 2 (P0.vkOf 1)

/-- Demo run: `Client.initiate_edhoc` with session id `[5]`, nonce `[6]`,
ephemeral key 3. -/
def demoStep1 : Message1 × ClientState := Client.initiate_edhoc P0 demoClient0 [5] [6] 3

/-- Demo run: MSG1. -/
def demoM1 : Message1 := demoStep1.1

/-- Demo run: client state after MSG1 was sent. -/
def demoClient1 : ClientState := demoStep1.2

/-- Demo run: `Server.on_msg_1` with session id `[7]`, nonce `[8]`, ephemeral
key 4, on the untampered MSG1. -/
def demoStep2 : Message2 × ServerState :=
  Server.on_msg_1 P0 demoServer0 [7] [8] 4 (transmit1 P0 demoM1)

/-- Demo run: MSG2. -/
def demoM2 : Message2 := demoStep2.1

/-- Demo run: server state after MSG2 was sent. -/
def demoServer1 : ServerState := demoStep2.2

/-- Demo run: `Client.continue_edhoc` on the untampered MSG2. -/
def demoStep3 : Except Err (Message3 × ClientState) :=
  Client.continue_edhoc P0 demoClient1 (transmit2 P0 demoM2)

/-- Demo run: MSG3. -/
def demoM3 : Message3 := (demoStep3.toOption.getD default).1

/-- Demo run: client state after MSG3 was sent. -/
def demoClient2 : ClientState := (demoStep3.toOption.getD default).2

/-- Demo run: `Server.on_msg_3` on the untampered MSG3. -/
def demoStep4 : Except Err ServerState := Server.on_msg_3 P0 demoServer1 (transmit3 P0 demoM3)

/-- Demo run: server state after the handshake completed. -/
def demoServer2 : ServerState := demoStep4.toOption.getD default

/-- Decidable equality for `Except`, needed to evaluate the model on
concrete inputs. -/
def exceptDecEq {ε α : Type} [DecidableEq ε] [DecidableEq α] :
    (a b : Except ε α) → Decidable (a = b)
  | .error e, .error f =>
    if h : e = f then .isTrue (by rw [h])
    else .isFalse (fun hh => h (by cases hh; rfl))
  | .error _, .ok _ => .isFalse (fun h => Except.noConfusion h)
  | .ok _, .error _ => .isFalse (fun h => Except.noConfusion h)
  | .ok a, .ok b =>
    if h : a = b then .isTrue (by rw [h])
    else .isFalse (fun hh => h (by cases hh; rfl))

instance {ε α : Type} [DecidableEq ε] [DecidableEq α] : DecidableEq (Except ε α) :=
  exceptDecEq

/-- Transmission preserves the transcript bytes of MSG1. -/
lemma transmit1_toBytes (P : Prims) (m : Message1) : (transmit1 P m).toBytes P = m.toBytes P := rfl

/-- Transmission preserves the transcript bytes of MSG2. -/
lemma transmit2_toBytes (P : Prims) (m : Message2) : (transmit2 P m).toBytes P = m.toBytes P := rfl

/-- Transmission preserves the transcript bytes of MSG3. -/
lemma transmit3_toBytes (P : Prims) (m : Message3) : (transmit3 P m).toBytes P = m.toBytes P := rfl

/-- Unfolding `Server.on_receive` on a tag-1 message. -/
lemma on_receive_m1 (P : Prims) (sid nonce : Bytes) (ek : Nat) (s : ServerState)
    (m : Message1) :
    Server.on_receive P sid nonce ek s (.m1 m)
      = some (.ok (.msg2 (Server.on_msg_1 P s sid nonce ek m).1,
          (Server.on_msg_1 P s sid nonce ek m).2)) := rfl

/-- Unfolding `Server.on_receive` on a tag-3 message. -/
lemma on_receive_m3 (P : Prims) (sid nonce : Bytes) (ek : Nat) (s : ServerState)
    (m : Message3) :
    Server.on_receive P sid nonce ek s (.m3 m)
      = some ((Server.on_msg_3 P s m).map fun s1 => (.messageOk, s1)) := rfl

/-- Value of the `oscore_context` accessor on an uncached, fully populated
session state. -/
lemma oscore_context_of (P : Prims) (s : EdhocState) (m1 : Message1) (m2 : Message2)
    (m3 : Message3) (Z : Bytes) (hc : s.oscoreCache = none) (h1 : s.message1 = some m1)
    (h2 : s.message2 = some m2) (h3 : s.message3 = some m3)
    (hz : s.session.shared_secret = some Z) :
    (s.oscore_context P).1 =
      { master_secret := derive_key P Z 16 (cose_kdf_context "EDHOC OSCORE Master Secret" 16
          (P.H (P.H (m1.toBytes P ++ m2.toBytes P) ++ m3.toBytes P))),
        master_salt := derive_key P Z 7 (cose_kdf_context "EDHOC OSCORE Master Salt" 7
          (P.H (P.H (m1.toBytes P ++ m2.toBytes P) ++ m3.toBytes P))) } := by
  simp [EdhocState.oscore_context, hc, h1, h2, h3, hz]

/-- State shape after a successful `Server.on_msg_3`: only `message3` is
updated; the session record (including the ephemeral private key) is kept. -/
lemma on_msg_3_ok_state (P : Prims) (s : ServerState) (m3 : Message3) (s2 : ServerState)
    (h : Server.on_msg_3 P s m3 = .ok s2) :
    s2 = { s with st := { s.st with message3 := some m3 } } := by
  simp only [Server.on_msg_3, Bind.bind, Except.bind, Pure.pure, Except.pure] at h
  split at h
  · exact Except.noConfusion h
  · split at h
    · exact Except.noConfusion h
    · exact (Except.ok.inj h).symm

/-- Projection form of `on_msg_3_ok_state`. -/
lemma on_msg_3_ok_proj (P : Prims) (s : ServerState) (m3 : Message3) (s2 : ServerState)
    (h : Server.on_msg_3 P s m3 = .ok s2) :
    s2.st.oscoreCache = s.st.oscoreCache ∧ s2.st.message1 = s.st.message1
    ∧ s2.st.message2 = s.st.message2 ∧ s2.st.message3 = some m3
    ∧ s2.st.session = s.st.session := by
  rw [on_msg_3_ok_state P s m3 s2 h]
  exact ⟨rfl, rfl, rfl, rfl, rfl⟩

/-- State and message shape after a successful `Client.continue_edhoc`:
the stored transcript, the derived shared secret, and the MSG3 ciphertext
with the keys used to produce it. -/
lemma continue_edhoc_ok_state (P : Prims) (c : ClientState) (m2 : Message2)
    (m3 : Message3) (c2 : ClientState)
    (h : Client.continue_edhoc P c m2 = Except.ok (m3, c2)) :
    c2.st.message1 = c.st.message1 ∧ c2.st.message2 = some m2 ∧ c2.st.message3 = some m3
    ∧ c2.st.session.shared_secret
        = some (P.dh (c.st.session.private_key.getD 0) m2.peer_ephemeral_key)
    ∧ c2.st.oscoreCache = c.st.oscoreCache
    ∧ m3.bytes_object = none
    ∧ m3.ciphertext_3 = some (P.aeadEnc
        (derive_key P (P.dh (c.st.session.private_key.getD 0) m2.peer_ephemeral_key) 16
          (cose_kdf_context "AES-CCM-64-64-128" 16
            (Message3.aad_3 P m3 (c.st.message1.getD default) m2)))
        (derive_key P (P.dh (c.st.session.private_key.getD 0) m2.peer_ephemeral_key) 7
          (cose_kdf_context "IV-Generation" 7
            (Message3.aad_3 P m3 (c.st.message1.getD default) m2)))
        (Message3.aad_3 P m3 (c.st.message1.getD default) m2)
        (P.mkSig c.sk (Message3.aad_3 P m3 (c.st.message1.getD default) m2))) := by
  simp only [Client.continue_edhoc, Bind.bind, Except.bind, Pure.pure, Except.pure] at h
  split at h
  · exact Except.noConfusion h
  · split at h
    · exact Except.noConfusion h
    · have h2 := Except.ok.inj h
      injection h2 with hm hc2
      subst hm
      subst hc2
      exact ⟨rfl, rfl, rfl, rfl, rfl, rfl, rfl⟩

/-- Reading the `oscore_context` property leaves a state on which reading it
again returns the same context and the same state (the lazy cache is
transparent). -/
lemma oscore_context_snd (P : Prims) (s : EdhocState) :
    ((s.oscore_context P).2).oscore_context P
      = ((s.oscore_context P).1, (s.oscore_context P).2) := by
  cases hc : s.oscoreCache <;> simp [EdhocState.oscore_context, hc]

/-- C10: `EdhocSession.encrypt` always uses the OSCORE `master_salt` as the
AEAD iv and the `master_secret` as the key, and introduces no per-message
nonce: two successive `encrypt` calls with the same payload on the same
session return identical ciphertext bytes. -/
theorem encrypt_fixed_iv_deterministic (P : Prims) (s : EdhocState) (p : Bytes) :
    (s.encrypt P p).1 = P.aeadEnc ((s.oscore_context P).1).master_secret
        ((s.oscore_context P).1).master_salt [] p
    ∧ (((s.encrypt P p).2).encrypt P p).1 = (s.encrypt P p).1 := by
  refine ⟨rfl, ?_⟩
  show e0serialize P p (((((s.oscore_context P).2).oscore_context P).1).master_salt)
      (((((s.oscore_context P).2).oscore_context P).1).master_secret) = (s.encrypt P p).1
  rw [oscore_context_snd]
  rfl

/-- C4: on two endpoint session states that derived equal OSCORE contexts,
what one endpoint encrypts the other decrypts back to the plaintext (in both
directions), given that the underlying AEAD is correct. -/
theorem oscore_encrypt_decrypt_roundtrip (P : Prims)
    (haead : ∀ k iv aad p, P.aeadDec k iv aad (P.aeadEnc k iv aad p) = .ok p)
    (a b : EdhocState) (hab : (a.oscore_context P).1 = (b.oscore_context P).1) (m : Bytes) :
    ((b.decrypt P ((a.encrypt P m).1)).1 = .ok m)
    ∧ ((a.decrypt P ((b.encrypt P m).1)).1 = .ok m) := by
  constructor
  · show P.aeadDec ((b.oscore_context P).1).master_secret ((b.oscore_context P).1).master_salt []
        (P.aeadEnc ((a.oscore_context P).1).master_secret ((a.oscore_context P).1).master_salt [] m)
        = .ok m
    rw [hab]
    exact haead _ _ _ _
  · show P.aeadDec ((a.oscore_context P).1).master_secret ((a.oscore_context P).1).master_salt []
        (P.aeadEnc ((b.oscore_context P).1).master_secret ((b.oscore_context P).1).master_salt [] m)
        = .ok m
    rw [hab]
    exact haead _ _ _ _

/-- The concrete AEAD instance of `P0` is correct. -/
lemma P0_aead_roundtrip : ∀ k iv aad p, P0.aeadDec k iv aad (P0.aeadEnc k iv aad p) = .ok p := by
  intro k iv aad p
  show (if ((k ++ iv) ++ p).take (k ++ iv).length = k ++ iv
      then Except.ok (((k ++ iv) ++ p).drop (k ++ iv).length)
      else Except.error Err.decryptionFailed) = Except.ok p
  rw [List.take_left, List.drop_left]
  simp

set_option maxRecDepth 40000 in
/-- Witness for C4: the two endpoints of the demo handshake have equal
contexts, and the round trip holds there on a concrete plaintext. -/
theorem oscore_encrypt_decrypt_roundtrip_witness :
    ((demoServer2.st.oscore_context P0).1 = (demoClient2.st.oscore_context P0).1)
    ∧ ((demoClient2.st.decrypt P0 ((demoServer2.st.encrypt P0 (utf8 "hello from server")).1)).1
        = .ok (utf8 "hello from server"))
    ∧ ((demoServer2.st.decrypt P0 ((demoClient2.st.encrypt P0 (utf8 "hello from server")).1)).1
        = .ok (utf8 "hello from server")) := by
  have hab : (demoServer2.st.oscore_context P0).1 = (demoClient2.st.oscore_context P0).1 := by
    decide
  exact ⟨hab,
    (oscore_encrypt_decrypt_roundtrip P0 P0_aead_roundtrip demoServer2.st demoClient2.st hab
      (utf8 "hello from server")).1,
    (oscore_encrypt_decrypt_roundtrip P0 P0_aead_roundtrip demoServer2.st demoClient2.st hab
      (utf8 "hello from server")).2⟩

set_option maxRecDepth 40000 in
/-- Counterexample for C5: in the demo handshake the server completes MSG3
processing (returns MessageOk), yet the session still holds the ephemeral
ECDH private key — it is not zeroed or destroyed. -/
theorem server_keeps_private_key_cex :
    Server.on_msg_3 P0 demoServer1 (transmit3 P0 demoM3) = .ok demoServer2
    ∧ demoServer2.st.session.private_key = some 4 := by
  exact ⟨by decide, by decide⟩

/-- C5 amended: a successful `Server.on_msg_3` leaves the session's
ephemeral private key exactly as it was — the key is retained, not
destroyed. -/
theorem on_msg_3_retains_private_key (P : Prims) (s : ServerState) (m3 : Message3)
    (s2 : ServerState) (h : Server.on_msg_3 P s m3 = .ok s2) :
    s2.st.session.private_key = s.st.session.private_key := by
  rw [on_msg_3_ok_state P s m3 s2 h]

set_option maxRecDepth 40000 in
/-- Witness for C5 (amended): the preservation theorem applied to the demo
handshake. -/
theorem on_msg_3_retains_private_key_witness :
    Server.on_msg_3 P0 demoServer1 (transmit3 P0 demoM3) = .ok demoServer2
    ∧ demoServer2.st.session.private_key = demoServer1.st.session.private_key := by
  have h : Server.on_msg_3 P0 demoServer1 (transmit3 P0 demoM3) = .ok demoServer2 := by decide
  exact ⟨h, on_msg_3_retains_private_key P0 demoServer1 (transmit3 P0 demoM3) demoServer2 h⟩

/-- Counterexample for C6: a tag-2 message (MSG2) and a tag-0 message
(EDHOC-Error) received by the server after MSG1 are silently ignored —
`on_receive` returns `None`, with no Failed transition, no StateViolation
error, and no destruction of the session handle. -/
theorem on_receive_unexpected_tag_ignored_cex :
    Server.on_receive P0 [9] [10] 11 demoServer1 (.m2 demoM2) = none
    ∧ Server.on_receive P0 [9] [10] 11 demoServer1 (.err [5] "session id collision") = none :=
  ⟨rfl, rfl⟩

/-- C6 amended: `Server.on_receive` silently drops (returns `None` for) any
message whose tag is neither 1 nor 3, leaving the state untouched, and
(re)processes a MSG1 in every state — so a duplicate MSG1 starts a fresh
session instead of being rejected. -/
theorem on_receive_dispatch (P : Prims) (sid nonce : Bytes) (ek : Nat) (s : ServerState)
    (w : WireMsg) (h1 : w.tag ≠ 1) (h3 : w.tag ≠ 3) :
    Server.on_receive P sid nonce ek s w = none
    ∧ ∀ m, Server.on_receive P sid nonce ek s (.m1 m)
        = some (.ok (.msg2 (Server.on_msg_1 P s sid nonce ek m).1,
            (Server.on_msg_1 P s sid nonce ek m).2)) := by
  refine ⟨?_, fun m => rfl⟩
  cases w
  · exact absurd rfl h1
  · rfl
  · exact absurd rfl h3
  · rfl

/-- Witness for C6 (amended): the dispatch theorem applied to a concrete
tag-2 message in the demo server state. -/
theorem on_receive_dispatch_witness :
    WireMsg.tag (.m2 demoM2) ≠ 1 ∧ WireMsg.tag (.m2 demoM2) ≠ 3
    ∧ Server.on_receive P0 [9] [10] 11 demoServer1 (.m2 demoM2) = none :=
  ⟨by decide, by decide,
    (on_receive_dispatch P0 [9] [10] 11 demoServer1 (.m2 demoM2) (by decide) (by decide)).1⟩

set_option maxRecDepth 40000 in
/-- Counterexample for C7: the server has no KID registry at all; the demo
MSG3 — whatever KID its inner Sign1 may carry — is verified against the
constructor-fixed `client_id` and succeeds; no `UnknownPeer` failure exists
on this path. -/
theorem on_msg_3_no_kid_lookup_cex :
    Server.on_msg_3 P0 demoServer1 (transmit3 P0 demoM3) ≠ .error .unknownPeer
    ∧ (∃ s2, Server.on_msg_3 P0 demoServer1 (transmit3 P0 demoM3) = .ok s2) := by
  exact ⟨by decide, ⟨demoServer2, by decide⟩⟩

/-- Transcript hash `aad3` as computed inside `Server.on_msg_3`. -/
def serverAad3 (P : Prims) (s : ServerState) (m3 : Message3) : Bytes :=
  Message3.aad_3 P m3 (s.st.message1.getD default) (s.st.message2.getD default)

/-- Key `k_3` as computed inside `Server.on_msg_3`. -/
def serverK3 (P : Prims) (s : ServerState) (m3 : Message3) : Bytes :=
  derive_key P (s.st.session.shared_secret.getD []) 16
    (cose_kdf_context "AES-CCM-64-64-128" 16 (serverAad3 P s m3))

/-- Iv `iv_3` as computed inside `Server.on_msg_3`. -/
def serverIV3 (P : Prims) (s : ServerState) (m3 : Message3) : Bytes :=
  derive_key P (s.st.session.shared_secret.getD []) 7
    (cose_kdf_context "IV-Generation" 7 (serverAad3 P s m3))

/-- Unfolding of `Server.on_msg_3` into its decrypt/verify pipeline. -/
lemma on_msg_3_eq (P : Prims) (s : ServerState) (m3 : Message3) :
    Server.on_msg_3 P s m3
      = (e0decrypt P (m3.ciphertext_3.getD []) (serverK3 P s m3) (serverIV3 P s m3)
          (serverAad3 P s m3)).bind
          (fun sig_u => (P.verify1 sig_u s.client_id (serverAad3 P s m3)).bind
            (fun _payload =>
              Except.ok { s with st := { s.st with message3 := some m3 } })) := rfl

/-- C7 amended: MSG3 verification succeeds exactly when `ciphertext_3`
decrypts under the session keys and the inner Sign1 verifies against the
single verification key `client_id` fixed at server construction — the
received message contributes no key identity, and no registry lookup or
`UnknownPeer` error takes part. -/
theorem on_msg_3_fixed_verification_key (P : Prims) (s : ServerState) (m3 : Message3) :
    (∃ s2, Server.on_msg_3 P s m3 = .ok s2) ↔
      ∃ sig_u payload,
        e0decrypt P (m3.ciphertext_3.getD []) (serverK3 P s m3) (serverIV3 P s m3)
          (serverAad3 P s m3) = .ok sig_u
        ∧ P.verify1 sig_u s.client_id (serverAad3 P s m3) = .ok payload := by
  constructor
  · rintro ⟨s2, h⟩
    rw [on_msg_3_eq] at h
    rcases hd : e0decrypt P (m3.ciphertext_3.getD []) (serverK3 P s m3) (serverIV3 P s m3)
        (serverAad3 P s m3) with e | sig_u
    · rw [hd] at h
      exact Except.noConfusion h
    · rw [hd] at h
      simp only [Except.bind] at h
      rcases hv : P.verify1 sig_u s.client_id (serverAad3 P s m3) with e | payload
      · rw [hv] at h
        exact Except.noConfusion h
      · exact ⟨sig_u, payload, rfl, hv⟩
  · rintro ⟨sig_u, payload, hd, hv⟩
    refine ⟨{ s with st := { s.st with message3 := some m3 } }, ?_⟩
    rw [on_msg_3_eq, hd]
    simp only [Except.bind]
    rw [hv]

/-- A /token request carrying every parameter of the spec request shape,
with valid client credentials and the given `grant_type` value. -/
def demoTokenReq (g : Val) : Params :=
  [(.grant_type, g), (.client_id, .str "ace_client_1"),
   (.client_secret, .bytes (utf8 "ace_client_1_secret_123456")),
   (.aud, .str "tempSensor0"), (.scope, .str "read_temperature"),
   (.cnf, .map [(1, [1, 2, 3])])]

/-- Counterexample for C8: a /token request with all required parameters and
valid client credentials but an unsupported `grant_type` value is answered
200 with a token — not 400 with `unsupported_grant_type`; the AS never
inspects the grant type. -/
theorem token_unsupported_grant_type_cex :
    AS.token initClients (some (demoTokenReq (.str "bogus_grant")))
      = .ok { status := 200, body := .tokenSuccess } := by
  decide

/-- C8 amended: the AS never validates the `grant_type` value — a request
with the required parameters and valid credentials gets 200 for every
`grant_type` — and every non-200 response the handler returns carries one of
the error codes `invalid_request` or `unauthorized_client` (a strict subset
of the three codes the spec lists; `unsupported_grant_type` is never
emitted). -/
theorem token_response_codes :
    (∀ (clients : List (Val × Val)) (params : Option Params) (r : HttpResp),
      AS.token clients params = .ok r → r.status ≠ 200 →
        r.body = .err "invalid_request" ∨ r.body = .err "unauthorized_client")
    ∧ (∀ g : Val, AS.token initClients (some (demoTokenReq g))
        = .ok { status := 200, body := .tokenSuccess }) := by
  constructor
  · intro clients params r h hs
    rcases params with _ | ps
    · simp only [AS.token, verify_token_request, Bool.not_false, if_true] at h
      rw [← Except.ok.inj h]
      exact .inl rfl
    · by_cases hv : verify_token_request (some ps)
      · by_cases hc : verify_client clients ((lookupParam ps .client_id).getD (.str ""))
            ((lookupParam ps .client_secret).getD (.str ""))
        · simp only [AS.token, hv, hc, Bool.not_true, if_false] at h
          rcases h1 : pyGet ps .cnf with e | cnf <;> rw [h1] at h
          · exact Except.noConfusion h
          simp only [Except.bind] at h
          rcases h2 : pyGetMap cnf 1 with e | k <;> rw [h2] at h
          · exact Except.noConfusion h
          simp only [Except.bind] at h
          rcases h3 : pyGet ps .scope with e | sc <;> rw [h3] at h
          · exact Except.noConfusion h
          simp only [Except.bind] at h
          rcases h4 : pyGet ps .aud with e | au <;> rw [h4] at h
          · exact Except.noConfusion h
          simp only [Except.bind] at h
          rw [← Except.ok.inj h] at hs
          exact absurd rfl hs
        · simp only [AS.token, hv, hc, Bool.not_true, Bool.not_false, if_false, if_true] at h
          rw [← Except.ok.inj h]
          exact .inr rfl
      · simp only [AS.token, hv, Bool.not_false, if_true] at h
        rw [← Except.ok.inj h]
        exact .inl rfl
  · intro g
    rfl

/-- Witness for C8 (amended): the failure-code branch applied at a concrete
request with bad credentials, and the grant-type-irrelevance branch at a
concrete grant type. -/
theorem token_response_codes_witness :
    AS.token initClients (some (demoTokenReq (.str "x")))
        = .ok { status := 200, body := .tokenSuccess }
    ∧ (AS.token initClients (some [(.grant_type, .str "g"), (.client_id, .str "eve"),
        (.client_secret, .bytes []), (.aud, .str "a")])
          = .ok { status := 400, body := .err "unauthorized_client" })
    ∧ ({ status := 400, body := .err "unauthorized_client" : HttpResp }.body
          = .err "invalid_request"
        ∨ { status := 400, body := .err "unauthorized_client" : HttpResp }.body
          = .err "unauthorized_client") := by
  refine ⟨token_response_codes.2 (.str "x"), by decide, ?_⟩
  exact token_response_codes.1 initClients
    (some [(.grant_type, .str "g"), (.client_id, .str "eve"),
      (.client_secret, .bytes []), (.aud, .str "a")])
    { status := 400, body := .err "unauthorized_client" } (by decide) (by decide)

/-- Introspection data of the registered demo token. -/
def demoAccessContext : AccessContext :=
  { scope := .str "read_temperature", audience := .str "tempSensor0",
    issuer := .str "ace.as-server.com", expires := 7300, issued_at := 100,
    bound_key := [1, 2, 3] }

/-- Token registry holding the registered demo token `h'0102'`. -/
def demoTokenRegistry : List (Val × AccessContext) :=
  [(.bytes [1, 2], demoAccessContext)]

/-- C9 (code bug): a /introspect request whose body carries a registered
`token` but omits the optional `token_type_hint` crashes with `KeyError`
(line 148 reads `params[CK.TOKEN_TYPE_HINT]` unconditionally, despite the
`# optional` comment), instead of answering 201; supplying the hint yields
the 201 map with `active`, `scope`, `aud`, `iss`, `exp`, `iat` and `cnf`. -/
theorem introspect_hint_keyerror :
    AS.introspect demoTokenRegistry [(.token, .bytes [1, 2])] = .error .keyError
    ∧ AS.introspect demoTokenRegistry
        [(.token, .bytes [1, 2]), (.token_type_hint, .str "pop")]
      = .ok { status := 201, body := .cborMap [
          (.active, .bool true),
          (.scope, .str "read_temperature"),
          (.aud, .str "tempSensor0"),
          (.iss, .str "ace.as-server.com"),
          (.exp, .num 7300),
          (.iat, .num 100),
          (.cnf, .map [(1, [1, 2, 3])])] } := by
  exact ⟨by decide, by decide⟩

/-- Demo run: the shared secret derived by the client. -/
def demoZ : Bytes := demoClient2.st.session.shared_secret.getD []

/-- Demo run: the transcript hash `TH_2` of the spec (equal to the modelled
`aad_2` by construction). -/
def demoTH2 : Bytes := Message2.aad_2 P0 demoM2 (transmit1 P0 demoM1)

/-- Demo run: the transcript hash `TH_3` of the spec:
`SHA-256(TH_2 concat ciphertext_2)`. -/
def demoTH3 : Bytes := P0.H (demoTH2 ++ demoM2.ciphertext_2.getD [])

/-- Demo run: the exchange hash `TH_4` as the claim words it:
`SHA-256(TH_3 concat ciphertext_3)`. -/
def demoTH4 : Bytes := spec_TH4 P0 demoTH3 (demoM3.ciphertext_3.getD [])

set_option maxRecDepth 80000 in
/-- Counterexample for C2: in the demo run, the OSCORE context the code
exports differs from the claim's formula — the code derives with algorithm
ids `"EDHOC OSCORE Master Secret"` / `"EDHOC OSCORE Master Salt"`, a 7-byte
salt, and an exchange hash `H(H(msg1 concat msg2) concat msg3)` over whole
messages, not `HKDF(Z, 16, ctx("OSCORE Master Secret", 16, TH_4))` /
`HKDF(Z, 8, ctx("OSCORE Master Salt", 8, TH_4))`. -/
theorem oscore_derivation_cex :
    ((demoClient2.st.oscore_context P0).1).master_secret
        ≠ specMasterSecret P0 demoZ demoTH4
    ∧ ((demoClient2.st.oscore_context P0).1).master_salt
        ≠ specMasterSalt P0 demoZ demoTH4 := by
  exact ⟨by decide, by decide⟩

/-- C2 amended: the exported OSCORE context is
`master_secret = HKDF(Z, 16, ctx("EDHOC OSCORE Master Secret", 16, EH))` and
`master_salt = HKDF(Z, 7, ctx("EDHOC OSCORE Master Salt", 7, EH))` where the
exchange hash is `EH = SHA-256(SHA-256(msg1 concat msg2) concat msg3)` over
the stored message bytes. -/
theorem oscore_context_derivation (P : Prims) (s : EdhocState) (m1 : Message1)
    (m2 : Message2) (m3 : Message3) (Z : Bytes) (hc : s.oscoreCache = none)
    (h1 : s.message1 = some m1) (h2 : s.message2 = some m2) (h3 : s.message3 = some m3)
    (hz : s.session.shared_secret = some Z) :
    ((s.oscore_context P).1).master_secret
      = P.hkdf Z 16 (cose_kdf_context "EDHOC OSCORE Master Secret" 16
          (P.H (P.H (m1.toBytes P ++ m2.toBytes P) ++ m3.toBytes P)))
    ∧ ((s.oscore_context P).1).master_salt
      = P.hkdf Z 7 (cose_kdf_context "EDHOC OSCORE Master Salt" 7
          (P.H (P.H (m1.toBytes P ++ m2.toBytes P) ++ m3.toBytes P))) := by
  rw [oscore_context_of P s m1 m2 m3 Z hc h1 h2 h3 hz]
  exact ⟨rfl, rfl⟩

set_option maxRecDepth 80000 in
/-- Witness for C2 (amended): the derivation formula evaluated on the
completed demo client state. -/
theorem oscore_context_derivation_witness :
    demoClient2.st.oscoreCache = none
    ∧ ((demoClient2.st.oscore_context P0).1).master_secret
      = P0.hkdf demoZ 16 (cose_kdf_context "EDHOC OSCORE Master Secret" 16
          (P0.H (P0.H (demoM1.toBytes P0 ++ (transmit2 P0 demoM2).toBytes P0)
            ++ demoM3.toBytes P0)))
    ∧ ((demoClient2.st.oscore_context P0).1).master_salt
      = P0.hkdf demoZ 7 (cose_kdf_context "EDHOC OSCORE Master Salt" 7
          (P0.H (P0.H (demoM1.toBytes P0 ++ (transmit2 P0 demoM2).toBytes P0)
            ++ demoM3.toBytes P0))) := by
  have h := oscore_context_derivation P0 demoClient2.st demoM1 (transmit2 P0 demoM2) demoM3
    demoZ (by decide) (by decide) (by decide) (by decide) (by decide)
  exact ⟨by decide, h.1, h.2⟩

set_option maxRecDepth 80000 in
/-- Counterexample for C3: the MSG2 ciphertext of the demo run is not
produced with the claim's `K_2 = HKDF(Z, 16, ctx("AES-CCM-16-64-128", 16,
TH_2))` and `IV_2 = HKDF(Z, 13, ctx("IV-GENERATION", 13, TH_2))` — the code
uses the algorithm ids `"AES-CCM-64-64-128"` and `"IV-Generation"` and a
7-byte iv. -/
theorem handshake_kdf_cex :
    demoM2.ciphertext_2 ≠ some (P0.aeadEnc (spec_K P0 demoZ demoTH2)
      (spec_IV P0 demoZ demoTH2) demoTH2 (P0.mkSig demoServer0.sk demoTH2)) := by
  decide

/-- C3 amended: the handshake AEAD material is derived with
`K = HKDF(Z, 16, ctx("AES-CCM-64-64-128", 16, TH))` and
`IV = HKDF(Z, 7, ctx("IV-Generation", 7, TH))` — over `TH_2` (`aad_2`) for
MSG2 on the server side, and over `TH_3` (`aad_3`) for MSG3 on the client
side. -/
theorem handshake_kdf_derivation :
    (∀ (P : Prims) (s : ServerState) (sid nonce : Bytes) (ek : Nat) (m1 : Message1),
      (Server.on_msg_1 P s sid nonce ek m1).1.ciphertext_2
        = some (P.aeadEnc
            (derive_key P (P.dh ek m1.ephemeral_key) 16 (cose_kdf_context "AES-CCM-64-64-128" 16
              ((Server.on_msg_1 P s sid nonce ek m1).1.aad_2 P m1)))
            (derive_key P (P.dh ek m1.ephemeral_key) 7 (cose_kdf_context "IV-Generation" 7
              ((Server.on_msg_1 P s sid nonce ek m1).1.aad_2 P m1)))
            ((Server.on_msg_1 P s sid nonce ek m1).1.aad_2 P m1)
            (P.mkSig s.sk ((Server.on_msg_1 P s sid nonce ek m1).1.aad_2 P m1))))
    ∧ (∀ (P : Prims) (c : ClientState) (m2 : Message2) (m3 : Message3) (c2 : ClientState),
        Client.continue_edhoc P c m2 = .ok (m3, c2) →
        m3.ciphertext_3 = some (P.aeadEnc
          (derive_key P (P.dh (c.st.session.private_key.getD 0) m2.peer_ephemeral_key) 16
            (cose_kdf_context "AES-CCM-64-64-128" 16
              (Message3.aad_3 P m3 (c.st.message1.getD default) m2)))
          (derive_key P (P.dh (c.st.session.private_key.getD 0) m2.peer_ephemeral_key) 7
            (cose_kdf_context "IV-Generation" 7
              (Message3.aad_3 P m3 (c.st.message1.getD default) m2)))
          (Message3.aad_3 P m3 (c.st.message1.getD default) m2)
          (P.mkSig c.sk (Message3.aad_3 P m3 (c.st.message1.getD default) m2)))) := by
  constructor
  · intro P s sid nonce ek m1
    rfl
  · intro P c m2 m3 c2 h
    exact (continue_edhoc_ok_state P c m2 m3 c2 h).2.2.2.2.2.2

set_option maxRecDepth 80000 in
/-- Witness for C3 (amended): the client-side branch applied to the demo
run. -/
theorem handshake_kdf_derivation_witness :
    Client.continue_edhoc P0 demoClient1 (transmit2 P0 demoM2) = .ok (demoM3, demoClient2)
    ∧ demoM3.ciphertext_3 = some (P0.aeadEnc
        (derive_key P0 (P0.dh (demoClient1.st.session.private_key.getD 0)
            ((transmit2 P0 demoM2).peer_ephemeral_key)) 16
          (cose_kdf_context "AES-CCM-64-64-128" 16
            (Message3.aad_3 P0 demoM3 (demoClient1.st.message1.getD default)
              (transmit2 P0 demoM2))))
        (derive_key P0 (P0.dh (demoClient1.st.session.private_key.getD 0)
            ((transmit2 P0 demoM2).peer_ephemeral_key)) 7
          (cose_kdf_context "IV-Generation" 7
            (Message3.aad_3 P0 demoM3 (demoClient1.st.message1.getD default)
              (transmit2 P0 demoM2))))
        (Message3.aad_3 P0 demoM3 (demoClient1.st.message1.getD default) (transmit2 P0 demoM2))
        (P0.mkSig demoClient1.sk
          (Message3.aad_3 P0 demoM3 (demoClient1.st.message1.getD default)
            (transmit2 P0 demoM2)))) := by
  have h : Client.continue_edhoc P0 demoClient1 (transmit2 P0 demoM2)
      = .ok (demoM3, demoClient2) := by decide
  exact ⟨h, handshake_kdf_derivation.2 P0 demoClient1 (transmit2 P0 demoM2) demoM3 demoClient2 h⟩

/-- C1: in every untampered EDHOC run between an honest client and an honest
server (`initiate_edhoc`, `on_receive` of MSG1, `continue_edhoc` of MSG2,
`on_receive` of MSG3), the OSCORE contexts derived on the two sides agree:
equal `master_secret` and equal `master_salt`.  The only cryptographic
assumption is commutativity of the ECDH exchange. -/
theorem edhoc_run_oscore_context_agreement
    (P : Prims) (csk ssk x y : Nat) (csid cnonce ssid snonce : Bytes)
    (m2 : Message2) (s1 : ServerState) (m3 : Message3) (c2 : ClientState) (s2 : ServerState)
    (hdh : P.dh x (P.pub y) = P.dh y (P.pub x))
    (hrecv1 : Server.on_receive P ssid snonce y (Server.init P ssk (P.vkOf csk))
        (.m1 (transmit1 P
          (Client.initiate_edhoc P (Client.init P csk (P.vkOf ssk)) csid cnonce x).1))
      = some (.ok (.msg2 m2, s1)))
    (hcont : Client.continue_edhoc P
        (Client.initiate_edhoc P (Client.init P csk (P.vkOf ssk)) csid cnonce x).2
        (transmit2 P m2) = .ok (m3, c2))
    (hrecv3 : Server.on_receive P ssid snonce y s1 (.m3 (transmit3 P m3))
      = some (.ok (.messageOk, s2))) :
    ((c2.st.oscore_context P).1).master_secret = ((s2.st.oscore_context P).1).master_secret
    ∧ ((c2.st.oscore_context P).1).master_salt = ((s2.st.oscore_context P).1).master_salt := by
  rw [on_receive_m1] at hrecv1
  simp only [Option.some.injEq, Except.ok.injEq, Prod.mk.injEq, Response.msg2.injEq] at hrecv1
  obtain ⟨hm2, hs1⟩ := hrecv1
  subst hm2
  subst hs1
  rw [on_receive_m3] at hrecv3
  simp only [Option.some.injEq] at hrecv3
  rcases hM3 : Server.on_msg_3 P
      (Server.on_msg_1 P (Server.init P ssk (P.vkOf csk)) ssid snonce y
        (transmit1 P
          (Client.initiate_edhoc P (Client.init P csk (P.vkOf ssk)) csid cnonce x).1)).2
      (transmit3 P m3) with e | s2v
  · rw [hM3] at hrecv3
    simp only [Except.map] at hrecv3
    exact Except.noConfusion hrecv3
  · rw [hM3] at hrecv3
    simp only [Except.map, Except.ok.injEq, Prod.mk.injEq, true_and] at hrecv3
    subst hrecv3
    obtain ⟨hq1, hq2, hq3, hq4, hq5⟩ := on_msg_3_ok_proj P _ _ _ hM3
    obtain ⟨hc1, hc2m, hc3, hcz, hccache, hm3b, hct3⟩ :=
      continue_edhoc_ok_state P _ _ m3 c2 hcont
    have hcctx := oscore_context_of P c2.st
      (Client.initiate_edhoc P (Client.init P csk (P.vkOf ssk)) csid cnonce x).1
      (transmit2 P (Server.on_msg_1 P (Server.init P ssk (P.vkOf csk)) ssid snonce y
        (transmit1 P
          (Client.initiate_edhoc P (Client.init P csk (P.vkOf ssk)) csid cnonce x).1)).1)
      m3 (P.dh x (P.pub y))
      (hccache.trans rfl) (hc1.trans rfl) hc2m hc3 (hcz.trans rfl)
    have hsctx := oscore_context_of P s2v.st
      (transmit1 P (Client.initiate_edhoc P (Client.init P csk (P.vkOf ssk)) csid cnonce x).1)
      (Server.on_msg_1 P (Server.init P ssk (P.vkOf csk)) ssid snonce y
        (transmit1 P
          (Client.initiate_edhoc P (Client.init P csk (P.vkOf ssk)) csid cnonce x).1)).1
      (transmit3 P m3) (P.dh y (P.pub x)) (hq1.trans rfl) (hq2.trans rfl) (hq3.trans rfl)
      hq4 ((congrArg Session.shared_secret hq5).trans rfl)
    rw [hcctx, hsctx, transmit1_toBytes, transmit2_toBytes, transmit3_toBytes, hdh]
    exact ⟨rfl, rfl⟩

set_option maxRecDepth 80000 in
/-- Witness for C1: the agreement theorem applied to the demo run, whose
hypotheses (ECDH commutativity and the four handshake steps) hold by
computation. -/
theorem edhoc_run_oscore_context_agreement_witness :
    P0.dh 3 (P0.pub 4) = P0.dh 4 (P0.pub 3)
    ∧ ((demoClient2.st.oscore_context P0).1).master_secret
        = ((demoServer2.st.oscore_context P0).1).master_secret
    ∧ ((demoClient2.st.oscore_context P0).1).master_salt
        = ((demoServer2.st.oscore_context P0).1).master_salt := by
  have hdh : P0.dh 3 (P0.pub 4) = P0.dh 4 (P0.pub 3) := by decide
  have h1 : Server.on_receive P0 [7] [8] 4 (Server.init P0 2 (P0.vkOf 1))
      (.m1 (transmit1 P0 (Client.initiate_edhoc P0 (Client.init P0 1 (P0.vkOf 2)) [5] [6] 3).1))
      = some (.ok (.msg2 demoM2, demoServer1)) := by decide
  have h2 : Client.continue_edhoc P0
      (Client.initiate_edhoc P0 (Client.init P0 1 (P0.vkOf 2)) [5] [6] 3).2
      (transmit2 P0 demoM2) = .ok (demoM3, demoClient2) := by decide
  have h3 : Server.on_receive P0 [7] [8] 4 demoServer1 (.m3 (transmit3 P0 demoM3))
      = some (.ok (.messageOk, demoServer2)) := by decide
  have h := edhoc_run_oscore_context_agreement P0 1 2 3 4 [5] [6] [7] [8]
    demoM2 demoServer1 demoM3 demoClient2 demoServer2 hdh h1 h2 h3
  exact ⟨hdh, h.1, h.2⟩

end Ace
